import Mathlib

/-!
Shallow embedding of the API proxy route handler `proxyRequest` from
`apps/start/src/routes/api/op.$.tsx`.

The handler resolves an internal base URL from two environment variables
(`INTERNAL_API_URL`, falling back to `API_URL` using JavaScript `||`
semantics), strips the mount path `/api/op` (with an optional trailing
slash) from the inbound pathname, builds an outbound request with the
inbound method, the inbound headers with `host` overridden, and the
inbound body for methods other than GET and HEAD, and relays the upstream
response with hop-by-hop headers removed.  Configuration absence yields a
500 JSON error response; any outbound failure yields a 502 JSON error
response.  The network is abstracted as a function from the outbound
request to `Except Unit UpstreamResponse`.
-/

namespace OpenPanel

/-- Environment configuration read by the handler: the primary
`INTERNAL_API_URL` variable and the fallback `API_URL`.  `none` models an
unset variable; `some ""` models a variable set to the empty string. -/
structure Env where
  internalApiUrl : Option String
  apiUrl : Option String
deriving Repr, DecidableEq

/-- JavaScript `a || b` on optional strings: `a` when it is set and
non-empty (truthy), otherwise the raw value of `b` (both `undefined` and
`""` are falsy). -/
def jsOrString (a b : Option String) : Option String :=
  match a with
  | some s => if s = "" then b else some s
  | none => b

/-- Base URL resolution of the handler:
`const internalApiUrl = process.env.INTERNAL_API_URL || process.env.API_URL`
followed by the falsiness guard `if (!internalApiUrl)`.  The result is
`none` exactly when the guard fires (resolved value unset or empty). -/
def resolveApiUrl (env : Env) : Option String :=
  match jsOrString env.internalApiUrl env.apiUrl with
  | none => none
  | some s => if s = "" then none else some s

/-- Inbound request as the handler observes it: the method, the
`pathname` and `search` components of `new URL(request.url)` (`search`
includes its leading `?` when non-empty), the header entries as produced
by `request.headers.entries()` (names lowercased by the Headers class),
and the body text `await request.text()` would return. -/
structure InboundRequest where
  method : String
  pathname : String
  search : String
  headers : List (String × String)
  body : String
deriving Repr, DecidableEq

/-- Removal of a leading pattern from a character list: `some rest` when
the list starts with the pattern (first argument), `none` otherwise. -/
def stripLead : List Char → List Char → Option (List Char)
  | [], s => some s
  | _ :: _, [] => none
  | a :: ps, b :: cs => if a = b then stripLead ps cs else none

/-- Result of `url.pathname.replace(/^\/api\/op\/?/, '')`: the regular
expression removes a leading `/api/op` together with an optional, greedily
matched trailing slash; a pathname without that leading pattern is
returned unchanged. -/
def pathAfterProxy (p : String) : String :=
  match stripLead "/api/op/".data p.data with
  | some rest => String.mk rest
  | none =>
    match stripLead "/api/op".data p.data with
    | some rest => String.mk rest
    | none => p

/-- Target URL built by the template literal
`${internalApiUrl}/${pathAfterProxy}${url.search}`. -/
def targetUrl (internalApiUrl pathname search : String) : String :=
  internalApiUrl ++ "/" ++ pathAfterProxy pathname ++ search

/-- Characters that terminate the host component of a URL. -/
def hostEnd (c : Char) : Bool := c = '/' || c = '?' || c = '#'

/-- Everything after the first `://` of a URL string, scheme and
separator removed (empty when no separator occurs). -/
def afterSchemeSep : List Char → List Char
  | ':' :: '/' :: '/' :: rest => rest
  | _ :: rest => afterSchemeSep rest
  | [] => []

/-- Host component `new URL(u).host` of a simple absolute URL of the form
`scheme://host[:port][/path][?query][#fragment]` without userinfo: the
substring between `://` and the first `/`, `?` or `#`. -/
def urlHost (u : String) : String :=
  String.mk ((afterSchemeSep u.data).takeWhile (fun c => !hostEnd c))

/-- Object-spread override `{...headers, host: v}` on an association
list: the first entry named `k` is replaced in place; when no entry is
named `k` the pair is appended at the end (JavaScript object
insertion-order semantics). -/
def setHeader : List (String × String) → String → String → List (String × String)
  | [], k, v => [(k, v)]
  | (k0, v0) :: rest, k, v =>
    if k0 = k then (k, v) :: rest else (k0, v0) :: setHeader rest k v

/-- Outbound request handed to `fetch`. -/
structure OutboundRequest where
  url : String
  method : String
  headers : List (String × String)
  body : Option String
deriving Repr, DecidableEq

/-- Outbound request the handler builds once a base URL is configured:
the target URL, the inbound method, the inbound headers with `host`
overridden to the host of the base URL, and the inbound body text for
every method other than GET and HEAD (`undefined`, i.e. `none`,
otherwise). -/
def mkOutboundRequest (internalApiUrl : String) (req : InboundRequest) : OutboundRequest :=
  { url := targetUrl internalApiUrl req.pathname req.search
    method := req.method
    headers := setHeader req.headers "host" (urlHost internalApiUrl)
    body := if req.method ≠ "GET" ∧ req.method ≠ "HEAD" then some req.body else none }

/-- Upstream response produced by a successful `fetch`. -/
structure UpstreamResponse where
  status : Nat
  statusText : String
  headers : List (String × String)
  body : String
deriving Repr, DecidableEq

/-- Response returned to the inbound caller. -/
structure ProxyResponse where
  status : Nat
  statusText : String
  headers : List (String × String)
  body : String
deriving Repr, DecidableEq

/-- Hop-by-hop header names skipped by the relay. -/
def hopByHopNames : List String := ["transfer-encoding", "connection", "keep-alive"]

/-- ASCII lowercasing of a header name, `key.toLowerCase()`. -/
def lowerName (s : String) : String := String.mk (s.data.map Char.toLower)

/-- Response-header construction: every upstream header entry is copied
except those whose lowercased name is one of the three hop-by-hop
names. -/
def relayHeaders (hs : List (String × String)) : List (String × String) :=
  hs.filter (fun kv => !(hopByHopNames.contains (lowerName kv.1)))

/-- Relayed response on upstream success: status and status text copied
verbatim, headers filtered, body passed through unchanged. -/
def relayResponse (up : UpstreamResponse) : ProxyResponse :=
  { status := up.status
    statusText := up.statusText
    headers := relayHeaders up.headers
    body := up.body }

/-- JSON body of the 500 configuration-missing response,
`JSON.stringify({ error: 'API URL not configured' })`. -/
def configMissingBody : String := "\x7b\"error\":\"API URL not configured\"\x7d"

/-- JSON body of the 502 proxy-failure response,
`JSON.stringify({ error: 'Proxy request failed' })`. -/
def proxyFailedBody : String := "\x7b\"error\":\"Proxy request failed\"\x7d"

/-- 500 response returned when no base URL is configured (`Response`
status text defaults to the empty string). -/
def configMissingResponse : ProxyResponse :=
  { status := 500, statusText := "",
    headers := [("Content-Type", "application/json")],
    body := configMissingBody }

/-- 502 response returned when the outbound call fails. -/
def proxyFailedResponse : ProxyResponse :=
  { status := 502, statusText := "",
    headers := [("Content-Type", "application/json")],
    body := proxyFailedBody }

/-- Outcome of one handler invocation: the response returned to the
caller together with the list of outbound requests actually issued to the
backend. -/
structure ProxyOutcome where
  response : ProxyResponse
  issued : List OutboundRequest
deriving Repr, DecidableEq

/-- The handler `proxyRequest`.  The network (the `fetch` call together
with everything else inside the `try` block that can throw) is abstracted
as `net`; `Except.error` models any transport-level failure. -/
def proxyRequest (env : Env) (net : OutboundRequest → Except Unit UpstreamResponse)
    (req : InboundRequest) : ProxyOutcome :=
  match resolveApiUrl env with
  | none => { response := configMissingResponse, issued := [] }
  | some internalApiUrl =>
    let out := mkOutboundRequest internalApiUrl req
    match net out with
    | Except.error _ => { response := proxyFailedResponse, issued := [out] }
    | Except.ok up => { response := relayResponse up, issued := [out] }

/-- Whether a character pattern occurs contiguously in a character
list. -/
def occursIn (pat : List Char) : List Char → Bool
  | [] => (stripLead pat []).isSome
  | c :: cs => (stripLead pat (c :: cs)).isSome || occursIn pat cs

/-- Brute-force substring test: `pat` occurs contiguously somewhere in
`s`. -/
def containsSubstr (s pat : String) : Bool := occursIn pat.data s.data

/-- Sample inbound request used by concrete witnesses. -/
def reqSample : InboundRequest :=
  ⟨"GET", "/api/op/users/42", "?active=true",
   [("host", "dash.example"), ("accept", "application/json")], ""⟩

/-- Sample upstream response used by concrete witnesses. -/
def upSample : UpstreamResponse :=
  ⟨200, "OK",
   [("Transfer-Encoding", "chunked"), ("Connection", "keep-alive"),
    ("content-type", "application/json")], "result-body"⟩

/-- Stripping a pattern from a list that starts with it yields the
rest. -/
theorem stripLead_append (pat s : List Char) : stripLead pat (pat ++ s) = some s := by
  induction pat with
  | nil => simp [stripLead]
  | cons a ps ih => simp [stripLead, ih]

/-- The mount path followed by a remainder strips to exactly that
remainder. -/
theorem pathAfterProxy_strip (rest : String) :
    pathAfterProxy ("/api/op/" ++ rest) = rest := by
  unfold pathAfterProxy
  rw [String.data_append, stripLead_append]

/-- Looking up the overridden name after `setHeader` finds the new
value. -/
theorem setHeader_lookup_self (l : List (String × String)) (k v : String) :
    List.lookup k (setHeader l k v) = some v := by
  induction l with
  | nil => simp [setHeader, List.lookup]
  | cons hd tl ih =>
    rcases hd with ⟨k0, v0⟩
    by_cases h : k0 = k
    · simp [setHeader, h, List.lookup]
    · have hbeq : (k == k0) = false := beq_eq_false_iff_ne.mpr (Ne.symm h)
      simp [setHeader, h, List.lookup, ih, hbeq]

/-- Looking up any other name after `setHeader` is unchanged. -/
theorem setHeader_lookup_other (l : List (String × String)) (k v k2 : String)
    (h : k2 ≠ k) :
    List.lookup k2 (setHeader l k v) = List.lookup k2 l := by
  have hbeq : (k2 == k) = false := beq_eq_false_iff_ne.mpr h
  induction l with
  | nil => simp [setHeader, List.lookup, hbeq]
  | cons hd tl ih =>
    rcases hd with ⟨k0, v0⟩
    by_cases hk : k0 = k
    · subst hk
      simp [setHeader, List.lookup, hbeq]
    · simp [setHeader, hk, List.lookup, ih]

/-- C1: when neither `INTERNAL_API_URL` nor `API_URL` resolves to a base
URL (each unset or set to the empty string), every request — whatever its
method or path — receives a response with status 500, exact body
`{"error":"API URL not configured"}` and content type `application/json`,
and no outbound request is issued to any backend. -/
theorem config_missing_500 (env : Env)
    (net : OutboundRequest → Except Unit UpstreamResponse) (req : InboundRequest)
    (h1 : env.internalApiUrl = none ∨ env.internalApiUrl = some "")
    (h2 : env.apiUrl = none ∨ env.apiUrl = some "") :
    (proxyRequest env net req).response.status = 500 ∧
    (proxyRequest env net req).response.body = "\x7b\"error\":\"API URL not configured\"\x7d" ∧
    (proxyRequest env net req).response.headers = [("Content-Type", "application/json")] ∧
    (proxyRequest env net req).issued = [] := by
  have hres : resolveApiUrl env = none := by
    rcases h1 with h1 | h1 <;> rcases h2 with h2 | h2 <;>
      simp [resolveApiUrl, jsOrString, h1, h2]
  refine ⟨?_, ?_, ?_, ?_⟩ <;>
    simp [proxyRequest, hres, configMissingResponse, configMissingBody]

/-- Witness for C1 at a concrete unset/empty environment and a concrete
request. -/
theorem config_missing_500_witness :
    (proxyRequest ⟨none, some ""⟩ (fun _ => Except.error ()) reqSample).response.status = 500 :=
  (config_missing_500 ⟨none, some ""⟩ (fun _ => Except.error ()) reqSample
    (Or.inl rfl) (Or.inr rfl)).1

/-- C2: with a configured base URL and a failing outbound call, the
response has status 502, exact body `{"error":"Proxy request failed"}`
and content type `application/json`, and exactly one outbound attempt is
made (no retry). -/
theorem upstream_failure_502 (env : Env)
    (net : OutboundRequest → Except Unit UpstreamResponse) (req : InboundRequest)
    (base : String) (hres : resolveApiUrl env = some base)
    (hfail : net (mkOutboundRequest base req) = Except.error ()) :
    (proxyRequest env net req).response.status = 502 ∧
    (proxyRequest env net req).response.body = "\x7b\"error\":\"Proxy request failed\"\x7d" ∧
    (proxyRequest env net req).response.headers = [("Content-Type", "application/json")] ∧
    (proxyRequest env net req).issued = [mkOutboundRequest base req] := by
  refine ⟨?_, ?_, ?_, ?_⟩ <;>
    simp [proxyRequest, hres, hfail, proxyFailedResponse, proxyFailedBody]

/-- Witness for C2 at a concrete environment, failing network and
request. -/
theorem upstream_failure_502_witness :
    (proxyRequest ⟨some "http://b", none⟩ (fun _ => Except.error ()) reqSample).response.status
      = 502 :=
  (upstream_failure_502 ⟨some "http://b", none⟩ (fun _ => Except.error ()) reqSample
    "http://b" (by decide) rfl).1

/-- C3: the concrete scenario — inbound GET `/api/op/users/42?active=true`
with base URL `http://api.internal:8080` — yields outbound target
`http://api.internal:8080/users/42?active=true`. -/
theorem target_url_example :
    (mkOutboundRequest "http://api.internal:8080" reqSample).url
      = "http://api.internal:8080/users/42?active=true" := by
  decide

/-- C4 counterexample: for the inbound pathname `/api/op/api/op/u` only
the leading occurrence of `/api/op/` is stripped, and the stripped
pattern reappears inside the computed target URL. -/
theorem nested_mount_counterexample :
    targetUrl "http://b" "/api/op/api/op/u" "" = "http://b/api/op/u" ∧
    containsSubstr (targetUrl "http://b" "/api/op/api/op/u" "") "/api/op/" = true :=
  ⟨by decide, by decide⟩

/-- C4 amended: for every inbound pathname of the form `/api/op/` ++
rest, the target URL is the base URL, a literal slash, the remainder
after the leading `/api/op/`, and the query string verbatim; only that
leading occurrence is removed, so the pattern can reappear in the target
when the base URL or the remainder contains it. -/
theorem mount_strip_target (base p q rest : String) (h : p = "/api/op/" ++ rest) :
    targetUrl base p q = base ++ "/" ++ rest ++ q ∧ pathAfterProxy p = rest := by
  subst h
  refine ⟨?_, pathAfterProxy_strip rest⟩
  unfold targetUrl
  rw [pathAfterProxy_strip]

/-- Witness for C4 amended at the concrete scenario path. -/
theorem mount_strip_target_witness :
    targetUrl "http://api.internal:8080" "/api/op/users/42" "?active=true"
      = "http://api.internal:8080" ++ "/" ++ "users/42" ++ "?active=true" :=
  (mount_strip_target "http://api.internal:8080" "/api/op/users/42" "?active=true"
    "users/42" (by decide)).1

/-- C5: the relayed headers contain no entry whose lowercased name is
`transfer-encoding`, `connection` or `keep-alive`, and every other
upstream header entry is present unchanged (same name, same value). -/
theorem relay_drops_hop_headers (up : UpstreamResponse) (kv : String × String) :
    (kv ∈ (relayResponse up).headers → hopByHopNames.contains (lowerName kv.1) = false) ∧
    (kv ∈ up.headers → hopByHopNames.contains (lowerName kv.1) = false →
      kv ∈ (relayResponse up).headers) := by
  constructor
  · intro hmem
    have h := (List.mem_filter.mp hmem).2
    simpa using h
  · intro hmem hno
    exact List.mem_filter.mpr ⟨hmem, by simpa using hno⟩

/-- Witness for C5: a non-hop header of the sample upstream response is
relayed unchanged. -/
theorem relay_drops_hop_headers_witness :
    ("content-type", "application/json") ∈ (relayResponse upSample).headers :=
  (relay_drops_hop_headers upSample ("content-type", "application/json")).2
    (by decide) (by decide)

/-- C6: a GET (or HEAD) outbound request carries no body even when the
inbound request had one; any other method forwards the inbound body text
unchanged. -/
theorem outbound_body_rule (base : String) (req : InboundRequest) :
    (req.method = "GET" → (mkOutboundRequest base req).body = none) ∧
    (req.method = "HEAD" → (mkOutboundRequest base req).body = none) ∧
    (req.method ≠ "GET" → req.method ≠ "HEAD" →
      (mkOutboundRequest base req).body = some req.body) := by
  refine ⟨?_, ?_, ?_⟩
  · intro h
    simp [mkOutboundRequest, h]
  · intro h
    simp [mkOutboundRequest, h]
  · intro h1 h2
    simp [mkOutboundRequest, h1, h2]

/-- Witness for C6: concrete GET and POST requests. -/
theorem outbound_body_rule_witness :
    (mkOutboundRequest "http://b" ⟨"GET", "/api/op/x", "", [], "ignored"⟩).body = none ∧
    (mkOutboundRequest "http://b" ⟨"POST", "/api/op/x", "", [], "payload"⟩).body
      = some "payload" :=
  ⟨(outbound_body_rule "http://b" ⟨"GET", "/api/op/x", "", [], "ignored"⟩).1 rfl,
   (outbound_body_rule "http://b" ⟨"POST", "/api/op/x", "", [], "payload"⟩).2.2
     (by decide) (by decide)⟩

/-- C7: the outbound request keeps the inbound method, its `host` header
entry holds the host component of the base URL, and every other header
name looks up to the same value as in the inbound mapping. -/
theorem outbound_host_override (base : String) (req : InboundRequest) (k : String) :
    (mkOutboundRequest base req).method = req.method ∧
    List.lookup "host" (mkOutboundRequest base req).headers = some (urlHost base) ∧
    (k ≠ "host" →
      List.lookup k (mkOutboundRequest base req).headers = List.lookup k req.headers) := by
  refine ⟨rfl, ?_, ?_⟩
  · simpa [mkOutboundRequest] using setHeader_lookup_self req.headers "host" (urlHost base)
  · intro hk
    simpa [mkOutboundRequest] using
      setHeader_lookup_other req.headers "host" (urlHost base) k hk

/-- Witness for C7 at the sample request and base URL
`http://api.internal:8080`. -/
theorem outbound_host_override_witness :
    List.lookup "host" (mkOutboundRequest "http://api.internal:8080" reqSample).headers
      = some (urlHost "http://api.internal:8080") ∧
    List.lookup "accept" (mkOutboundRequest "http://api.internal:8080" reqSample).headers
      = List.lookup "accept" reqSample.headers :=
  ⟨(outbound_host_override "http://api.internal:8080" reqSample "accept").2.1,
   (outbound_host_override "http://api.internal:8080" reqSample "accept").2.2 (by decide)⟩

/-- C8: on upstream success the relayed response's status code, status
text and body equal the upstream response's verbatim. -/
theorem relay_success_verbatim (env : Env)
    (net : OutboundRequest → Except Unit UpstreamResponse) (req : InboundRequest)
    (base : String) (up : UpstreamResponse)
    (hres : resolveApiUrl env = some base)
    (hok : net (mkOutboundRequest base req) = Except.ok up) :
    (proxyRequest env net req).response.status = up.status ∧
    (proxyRequest env net req).response.statusText = up.statusText ∧
    (proxyRequest env net req).response.body = up.body := by
  refine ⟨?_, ?_, ?_⟩ <;> simp [proxyRequest, hres, hok, relayResponse]

/-- Witness for C8 at a concrete environment, network and request. -/
theorem relay_success_verbatim_witness :
    (proxyRequest ⟨some "http://b", none⟩ (fun _ => Except.ok upSample) reqSample).response.status
      = upSample.status :=
  (relay_success_verbatim ⟨some "http://b", none⟩ (fun _ => Except.ok upSample) reqSample
    "http://b" upSample (by decide) rfl).1

/-- C9: an environment variable set to the empty string behaves as unset:
with an empty primary the resolution equals that with an unset primary
(so the fallback is used), and with both variables empty the handler
returns the 500 configuration-missing response without issuing an
outbound request. -/
theorem empty_env_as_unset (a : Option String)
    (net : OutboundRequest → Except Unit UpstreamResponse) (req : InboundRequest) :
    resolveApiUrl ⟨some "", a⟩ = resolveApiUrl ⟨none, a⟩ ∧
    resolveApiUrl ⟨some "", some "http://fallback"⟩ = some "http://fallback" ∧
    (proxyRequest ⟨some "", some ""⟩ net req).response.status = 500 ∧
    (proxyRequest ⟨some "", some ""⟩ net req).response.body
      = "\x7b\"error\":\"API URL not configured\"\x7d" ∧
    (proxyRequest ⟨some "", some ""⟩ net req).issued = [] := by
  refine ⟨rfl, by decide, ?_, ?_, ?_⟩ <;>
    simp [proxyRequest, resolveApiUrl, jsOrString, configMissingResponse, configMissingBody]

/-- C10: a literal slash is always inserted between the base URL and the
stripped remainder; a base URL ending in a slash therefore yields a
double slash before the remainder, and a pathname equal to the bare mount
path (with or without trailing slash) yields the base URL followed by a
slash and the query string. -/
theorem slash_always_inserted (base b p q : String) :
    targetUrl base p q = base ++ "/" ++ pathAfterProxy p ++ q ∧
    targetUrl (b ++ "/") p q = b ++ "//" ++ pathAfterProxy p ++ q ∧
    targetUrl base "/api/op" q = base ++ "/" ++ q ∧
    targetUrl base "/api/op/" q = base ++ "/" ++ q := by
  have hb : (b ++ "/") ++ "/" = b ++ "//" := by
    rw [String.append_assoc]
    exact congrArg (fun s => b ++ s) (by decide)
  have h1 : pathAfterProxy "/api/op" = "" := by decide
  have h2 : pathAfterProxy "/api/op/" = "" := by decide
  refine ⟨rfl, ?_, ?_, ?_⟩
  · unfold targetUrl
    rw [hb]
  · unfold targetUrl
    rw [h1, String.append_empty]
  · unfold targetUrl
    rw [h2, String.append_empty]

end OpenPanel
